import Mathlib

/-
Shallow embedding of the staking and governance pallets of the repository
(src/staking.rs, src/governance.rs).

The test runtime instantiates `AccountId = u64` and `Balance = u64`
(the tests use `u64` literals and `StakingPallet::<Runtime>`), so accounts
and balances are modelled as `Nat` with `u64` checked arithmetic: the
`checked_sub`/`checked_add` bounds are made explicit.  Proposal ids and
vote tallies are `u32` in the source; the `+= 1` increments are modelled
with an explicit `% 2^32` (Rust release-mode wrapping semantics).

A Rust `HashMap` is modelled as a function to `Option`, with `insert`
as pointwise update.  A Rust method taking `&mut self` and returning
`Result<A, &'static str>` is modelled as a pure function returning
`Except String A × State`: an early `return Err(..)` in the source leaves
`self` as it was at that point of the method body, which the embedding
reflects by pairing the error with the state accumulated so far.
-/

namespace StakingGov

/-- Maximum value of the `u64` balance type used by the runtime (`2^64 - 1`). -/
def U64_MAX : Nat := 18446744073709551615

/-- Modulus of the `u32` type used for proposal ids and vote tallies (`2^32`). -/
def U32_MOD : Nat := 4294967296

/-- `u64::checked_sub`: `none` exactly when the subtraction would underflow. -/
def checked_sub (a b : Nat) : Option Nat :=
  if b ≤ a then some (a - b) else none

/-- `u64::checked_add`: `none` exactly when the sum exceeds `u64::MAX`. -/
def checked_add (a b : Nat) : Option Nat :=
  if a + b ≤ U64_MAX then some (a + b) else none

/-- `HashMap<α, β>` modelled extensionally. -/
def Map (α β : Type) : Type := α → Option β

/-- `HashMap::insert` (the returned previous value is read off the map directly
where the source uses it). -/
def Map.insert {α β : Type} [DecidableEq α] (m : Map α β) (k : α) (v : β) : Map α β :=
  fun a => if a = k then some v else m a

/-- The empty `HashMap::new()`. -/
def Map.empty {α β : Type} : Map α β := fun _ => none

/-- `StakingPallet` state: free and staked balances per account. -/
structure StakingPallet where
  free_balances : Map Nat Nat
  staked_balances : Map Nat Nat

/-- `StakingPallet::new()`. -/
def StakingPallet.new : StakingPallet :=
  { free_balances := Map.empty, staked_balances := Map.empty }

/-- `StakingPallet::set_balance`: unconditionally insert the free balance. -/
def set_balance (s : StakingPallet) (who : Nat) (amount : Nat) : StakingPallet :=
  { s with free_balances := s.free_balances.insert who amount }

/-- `StakingPallet::get_free_balance`: absent entries read as zero. -/
def get_free_balance (s : StakingPallet) (who : Nat) : Nat :=
  (s.free_balances who).getD 0

/-- `StakingPallet::get_staked_balance`: absent entries read as zero. -/
def get_staked_balance (s : StakingPallet) (who : Nat) : Nat :=
  (s.staked_balances who).getD 0

/-- `StakingPallet::stake`: move `amount` from free to staked with checked
arithmetic; errors return before any insertion. -/
def stake (s : StakingPallet) (who : Nat) (amount : Nat) :
    Except String Unit × StakingPallet :=
  let free_balance := (s.free_balances who).getD 0
  let staked_balance := (s.staked_balances who).getD 0
  match checked_sub free_balance amount with
  | none => (Except.error "Insufficient balance", s)
  | some new_free =>
    match checked_add staked_balance amount with
    | none => (Except.error "Overflow", s)
    | some new_staked =>
      (Except.ok (),
        { s with
          free_balances := s.free_balances.insert who new_free,
          staked_balances := s.staked_balances.insert who new_staked })

/-- `StakingPallet::unstake`: move `amount` from staked to free with checked
arithmetic; errors return before any insertion. -/
def unstake (s : StakingPallet) (who : Nat) (amount : Nat) :
    Except String Unit × StakingPallet :=
  let staked_balance := (s.staked_balances who).getD 0
  let free_balance := (s.free_balances who).getD 0
  match checked_sub staked_balance amount with
  | none => (Except.error "Insufficient staked balance", s)
  | some new_staked =>
    match checked_add free_balance amount with
    | none => (Except.error "Overflow", s)
    | some new_free =>
      (Except.ok (),
        { s with
          staked_balances := s.staked_balances.insert who new_staked,
          free_balances := s.free_balances.insert who new_free })

/-- `ProposalStatus` from src/governance.rs. -/
inductive ProposalStatus where
  | Active
  | Approved
  | Rejected
deriving DecidableEq, Repr

/-- `Proposal<T>` from src/governance.rs (tallies are `u32`). -/
structure Proposal where
  description : String
  yes_votes : Nat
  no_votes : Nat
  status : ProposalStatus
  creator : Nat
deriving DecidableEq

/-- `GovernancePallet` state. -/
structure GovernancePallet where
  proposals : Map Nat Proposal
  votes : Map (Nat × Nat) Bool
  next_proposal_id : Nat

/-- `GovernancePallet::new()`. -/
def GovernancePallet.new : GovernancePallet :=
  { proposals := Map.empty, votes := Map.empty, next_proposal_id := 0 }

/-- `GovernancePallet::create_proposal`: store an Active proposal with zero
tallies under the current counter value, bump the `u32` counter, return the id. -/
def create_proposal (s : GovernancePallet) (creator : Nat) (description : String) :
    Except String Nat × GovernancePallet :=
  let proposal_id := s.next_proposal_id
  (Except.ok proposal_id,
    { s with
      proposals := s.proposals.insert proposal_id
        { description := description, yes_votes := 0, no_votes := 0,
          status := ProposalStatus.Active, creator := creator },
      next_proposal_id := (s.next_proposal_id + 1) % U32_MOD })

/-- `GovernancePallet::vote`: existence check, Active check, then
`votes.insert(..)` whose `Some` return value signals a duplicate (note the
insertion has already replaced the stored value at that point), then tally
increment. -/
def vote (s : GovernancePallet) (voter : Nat) (proposal_id : Nat) (vote_type : Bool) :
    Except String Unit × GovernancePallet :=
  match s.proposals proposal_id with
  | none => (Except.error "Proposal does not exist", s)
  | some proposal =>
    if proposal.status ≠ ProposalStatus.Active then
      (Except.error "Cannot vote on finalized proposal", s)
    else
      let vote_key := (voter, proposal_id)
      let previous := s.votes vote_key
      let s1 := { s with votes := s.votes.insert vote_key vote_type }
      if previous.isSome then
        (Except.error "Voter has already voted on this proposal", s1)
      else
        let proposal1 :=
          if vote_type then
            { proposal with yes_votes := (proposal.yes_votes + 1) % U32_MOD }
          else
            { proposal with no_votes := (proposal.no_votes + 1) % U32_MOD }
        (Except.ok (), { s1 with proposals := s1.proposals.insert proposal_id proposal1 })

/-- `GovernancePallet::get_proposal`. -/
def get_proposal (s : GovernancePallet) (proposal_id : Nat) : Option Proposal :=
  s.proposals proposal_id

/-- `GovernancePallet::finalize_proposal`: existence check, Active check, then
set the status from the strict tally comparison and return it. -/
def finalize_proposal (s : GovernancePallet) (proposal_id : Nat) :
    Except String ProposalStatus × GovernancePallet :=
  match s.proposals proposal_id with
  | none => (Except.error "Proposal does not exist", s)
  | some proposal =>
    if proposal.status ≠ ProposalStatus.Active then
      (Except.error "Cannot vote on finalized proposal", s)
    else
      let new_status :=
        if proposal.no_votes < proposal.yes_votes then ProposalStatus.Approved
        else ProposalStatus.Rejected
      (Except.ok new_status,
        { s with
          proposals := s.proposals.insert proposal_id { proposal with status := new_status } })

/-- A stake or unstake call with its arguments, for reasoning about call
sequences. -/
inductive StakeOp where
  | stakeOp (who : Nat) (amount : Nat)
  | unstakeOp (who : Nat) (amount : Nat)

/-- Apply one stake/unstake call. -/
def applyOp (s : StakingPallet) : StakeOp → Except String Unit × StakingPallet
  | StakeOp.stakeOp who amount => stake s who amount
  | StakeOp.unstakeOp who amount => unstake s who amount

/-- Run a sequence of stake/unstake calls, yielding `some` final state only
when every call in the sequence succeeds. -/
def runOps (s : StakingPallet) : List StakeOp → Option StakingPallet
  | [] => some s
  | op :: rest =>
    match applyOp s op with
    | (Except.ok _, s1) => runOps s1 rest
    | (Except.error _, _) => none

/-- Run a sequence of `create_proposal` calls from a fresh registry. -/
def createSeq (l : List (Nat × String)) : GovernancePallet :=
  l.foldl (fun s cd => (create_proposal s cd.1 cd.2).2) GovernancePallet.new

/-- Concrete state with free balance `u64::MAX` for account 1 and no staked entry. -/
def sMax : StakingPallet := set_balance StakingPallet.new 1 U64_MAX

/-- C8: set_balance never fails, sets the target account's free balance to the
given amount, and leaves every staked balance and every other account's free
balance unchanged.  (Absence of failure is reflected in the return type: the
source returns `()` with no `Result`.) -/
theorem set_balance_spec (s : StakingPallet) (who other : Nat) (amount : Nat)
    (hother : other ≠ who) :
    get_free_balance (set_balance s who amount) who = amount ∧
    (set_balance s who amount).staked_balances = s.staked_balances ∧
    (set_balance s who amount).free_balances other = s.free_balances other := by
  refine ⟨?_, rfl, ?_⟩
  · simp [get_free_balance, set_balance, Map.insert]
  · simp [set_balance, Map.insert, hother]

/-- Witness for C8 at a concrete state. -/
theorem set_balance_spec_witness :
    get_free_balance (set_balance StakingPallet.new 1 7) 1 = 7 ∧
    (set_balance StakingPallet.new 1 7).staked_balances = StakingPallet.new.staked_balances ∧
    (set_balance StakingPallet.new 1 7).free_balances 2 = StakingPallet.new.free_balances 2 :=
  set_balance_spec StakingPallet.new 1 2 7 (by decide)

/-- C9: the balance getters are pure queries (they take the state and return a
balance, modifying nothing — reflected in the embedding's types) and return
zero for an account with no entry in the corresponding map. -/
theorem get_balance_absent_is_zero (s : StakingPallet) (who : Nat)
    (hf : s.free_balances who = none) (hs : s.staked_balances who = none) :
    get_free_balance s who = 0 ∧ get_staked_balance s who = 0 := by
  simp [get_free_balance, get_staked_balance, hf, hs]

/-- Witness for C9 on the fresh pallet. -/
theorem get_balance_absent_is_zero_witness :
    get_free_balance StakingPallet.new 3 = 0 ∧ get_staked_balance StakingPallet.new 3 = 0 :=
  get_balance_absent_is_zero StakingPallet.new 3 rfl rfl

/-- `stake` in nested-if normal form (the subtraction check is evaluated first). -/
theorem stake_eq (s : StakingPallet) (who : Nat) (amount : Nat) :
    stake s who amount =
      if amount ≤ (s.free_balances who).getD 0 then
        if (s.staked_balances who).getD 0 + amount ≤ U64_MAX then
          (Except.ok (),
            { s with
              free_balances := s.free_balances.insert who ((s.free_balances who).getD 0 - amount),
              staked_balances :=
                s.staked_balances.insert who ((s.staked_balances who).getD 0 + amount) })
        else (Except.error "Overflow", s)
      else (Except.error "Insufficient balance", s) := by
  unfold stake checked_sub checked_add
  by_cases h1 : amount ≤ (s.free_balances who).getD 0 <;>
    by_cases h2 : (s.staked_balances who).getD 0 + amount ≤ U64_MAX <;>
    simp [h1, h2]

/-- `unstake` in nested-if normal form (the subtraction check is evaluated first). -/
theorem unstake_eq (s : StakingPallet) (who : Nat) (amount : Nat) :
    unstake s who amount =
      if amount ≤ (s.staked_balances who).getD 0 then
        if (s.free_balances who).getD 0 + amount ≤ U64_MAX then
          (Except.ok (),
            { s with
              staked_balances :=
                s.staked_balances.insert who ((s.staked_balances who).getD 0 - amount),
              free_balances := s.free_balances.insert who ((s.free_balances who).getD 0 + amount) })
        else (Except.error "Overflow", s)
      else (Except.error "Insufficient staked balance", s) := by
  unfold unstake checked_sub checked_add
  by_cases h1 : amount ≤ (s.staked_balances who).getD 0 <;>
    by_cases h2 : (s.free_balances who).getD 0 + amount ≤ U64_MAX <;>
    simp [h1, h2]

/-- C4 (amended): the subtraction check runs first, so the Overflow error is
reported only when the subtraction check passes.  Success holds exactly when
both checks pass. -/
theorem stake_unstake_error_conditions (s : StakingPallet) (who : Nat)
    (amount : Nat) :
    ((stake s who amount).1 = Except.error "Insufficient balance" ↔
      get_free_balance s who < amount) ∧
    ((stake s who amount).1 = Except.error "Overflow" ↔
      amount ≤ get_free_balance s who ∧ U64_MAX < get_staked_balance s who + amount) ∧
    ((stake s who amount).1 = Except.ok () ↔
      amount ≤ get_free_balance s who ∧ get_staked_balance s who + amount ≤ U64_MAX) ∧
    ((unstake s who amount).1 = Except.error "Insufficient staked balance" ↔
      get_staked_balance s who < amount) ∧
    ((unstake s who amount).1 = Except.error "Overflow" ↔
      amount ≤ get_staked_balance s who ∧ U64_MAX < get_free_balance s who + amount) ∧
    ((unstake s who amount).1 = Except.ok () ↔
      amount ≤ get_staked_balance s who ∧ get_free_balance s who + amount ≤ U64_MAX) := by
  have d1 : ¬ ("Insufficient balance" : String) = "Overflow" := by decide
  have d2 : ¬ ("Insufficient staked balance" : String) = "Overflow" := by decide
  simp only [stake_eq, unstake_eq, get_free_balance, get_staked_balance]
  split_ifs <;> simp_all [Except.error.injEq]

/-- Counterexample for C4 as stated: for account 1 in `sMax`, `free + amount`
exceeds `u64::MAX`, yet `unstake` does not fail with Overflow — the staked
subtraction check fires first. -/
theorem unstake_overflow_not_reported_cex :
    U64_MAX < get_free_balance sMax 1 + 1 ∧
    (unstake sMax 1 1).1 = Except.error "Insufficient staked balance" ∧
    ¬ (unstake sMax 1 1).1 = Except.error "Overflow" := by
  refine ⟨by decide, rfl, ?_⟩
  intro h
  have he : (unstake sMax 1 1).1 = Except.error "Insufficient staked balance" := rfl
  rw [he] at h
  exact absurd (Except.error.inj h) (by decide)

/-- C5: whenever stake or unstake returns an error, the state (both balance
maps, every account) is exactly as before the call. -/
theorem error_leaves_state_unchanged (s : StakingPallet) (who : Nat)
    (amount : Nat) (e : String) :
    ((stake s who amount).1 = Except.error e → (stake s who amount).2 = s) ∧
    ((unstake s who amount).1 = Except.error e → (unstake s who amount).2 = s) := by
  constructor
  · intro h
    rw [stake_eq] at h ⊢
    split_ifs at h ⊢ <;> simp_all
  · intro h
    rw [unstake_eq] at h ⊢
    split_ifs at h ⊢ <;> simp_all

/-- Witness for C5: a failing stake on the fresh pallet leaves it unchanged. -/
theorem error_leaves_state_unchanged_witness :
    (stake StakingPallet.new 1 5).2 = StakingPallet.new :=
  (error_leaves_state_unchanged StakingPallet.new 1 5 "Insufficient balance").1 rfl

/-- A successful stake conserves `free + staked` for every account. -/
theorem stake_ok_conserves (s s' : StakingPallet) (who : Nat) (amount : Nat)
    (h : stake s who amount = (Except.ok (), s')) (acc : Nat) :
    get_free_balance s' acc + get_staked_balance s' acc
      = get_free_balance s acc + get_staked_balance s acc := by
  rw [stake_eq] at h
  split_ifs at h with h1 h2
  · injection h with hfst hsnd
    subst hsnd
    by_cases hacc : acc = who
    · subst hacc
      simp [get_free_balance, get_staked_balance, Map.insert]
      omega
    · simp [get_free_balance, get_staked_balance, Map.insert, hacc]
  · exact absurd h (by simp)
  · exact absurd h (by simp)

/-- A successful unstake conserves `free + staked` for every account. -/
theorem unstake_ok_conserves (s s' : StakingPallet) (who : Nat) (amount : Nat)
    (h : unstake s who amount = (Except.ok (), s')) (acc : Nat) :
    get_free_balance s' acc + get_staked_balance s' acc
      = get_free_balance s acc + get_staked_balance s acc := by
  rw [unstake_eq] at h
  split_ifs at h with h1 h2
  · injection h with hfst hsnd
    subst hsnd
    by_cases hacc : acc = who
    · subst hacc
      simp [get_free_balance, get_staked_balance, Map.insert]
      omega
    · simp [get_free_balance, get_staked_balance, Map.insert, hacc]
  · exact absurd h (by simp)
  · exact absurd h (by simp)

/-- C1: across any sequence of successful stake/unstake calls, every account's
`free + staked` total is conserved. -/
theorem conservation (ops : List StakeOp) (s s' : StakingPallet)
    (h : runOps s ops = some s') (acc : Nat) :
    get_free_balance s' acc + get_staked_balance s' acc
      = get_free_balance s acc + get_staked_balance s acc := by
  induction ops generalizing s with
  | nil =>
    simp only [runOps, Option.some.injEq] at h
    cases h
    rfl
  | cons op rest ih =>
    simp only [runOps] at h
    rcases hop : applyOp s op with ⟨r, s1⟩
    rw [hop] at h
    cases r with
    | error e => simp at h
    | ok u =>
      cases u
      have hstep : get_free_balance s1 acc + get_staked_balance s1 acc
          = get_free_balance s acc + get_staked_balance s acc := by
        cases op with
        | stakeOp who amount => exact stake_ok_conserves s s1 who amount hop acc
        | unstakeOp who amount => exact unstake_ok_conserves s s1 who amount hop acc
      rw [ih s1 h, hstep]

/-- Concrete staking state: account 1 holds 1000 free tokens. -/
def sAlice : StakingPallet := set_balance StakingPallet.new 1 1000

/-- A concrete all-successful call sequence: stake 400 then unstake 100. -/
def opsDemo : List StakeOp := [StakeOp.stakeOp 1 400, StakeOp.unstakeOp 1 100]

/-- The state reached by running `opsDemo` from `sAlice`. -/
def sAliceAfter : StakingPallet := (runOps sAlice opsDemo).getD StakingPallet.new

/-- Witness for C1 on a concrete two-call sequence. -/
theorem conservation_witness :
    get_free_balance sAliceAfter 1 + get_staked_balance sAliceAfter 1
      = get_free_balance sAlice 1 + get_staked_balance sAlice 1 :=
  conservation opsDemo sAlice sAliceAfter rfl 1

/-- Concrete governance state: one proposal (id 0) created by account 1. -/
def gDemo : GovernancePallet := (create_proposal GovernancePallet.new 1 "demo").2

/-- `gDemo` after account 2 votes yes on proposal 0. -/
def gVoted : GovernancePallet := (vote gDemo 2 0 true).2

/-- The proposal stored under id 0 in `gVoted`. -/
def pVoted : Proposal :=
  { description := "demo", yes_votes := 1, no_votes := 0,
    status := ProposalStatus.Active, creator := 1 }

/-- `gVoted` after proposal 0 is finalized (Approved: 1 yes vs 0 no). -/
def gFinal : GovernancePallet := (finalize_proposal gVoted 0).2

/-- The proposal stored under id 0 in `gFinal`. -/
def pFinal : Proposal := { pVoted with status := ProposalStatus.Approved }

/-- C2 (amended): a second vote on the same Active proposal fails with the
AlreadyVoted error and leaves the proposals map (hence both tallies) unchanged,
but the stored vote record is overwritten with the attempted vote's boolean. -/
theorem vote_already_voted (s : GovernancePallet) (voter pid : Nat) (vt b : Bool)
    (p : Proposal) (hp : s.proposals pid = some p)
    (hA : p.status = ProposalStatus.Active) (hv : s.votes (voter, pid) = some b) :
    (vote s voter pid vt).1 = Except.error "Voter has already voted on this proposal" ∧
    (vote s voter pid vt).2.proposals = s.proposals ∧
    (vote s voter pid vt).2.votes = s.votes.insert (voter, pid) vt := by
  simp [vote, hp, hA, hv]

/-- Witness for C2's amended statement at a concrete duplicate vote. -/
theorem vote_already_voted_witness :
    (vote gVoted 2 0 false).1 = Except.error "Voter has already voted on this proposal" ∧
    (vote gVoted 2 0 false).2.proposals = gVoted.proposals ∧
    (vote gVoted 2 0 false).2.votes = gVoted.votes.insert (2, 0) false :=
  vote_already_voted gVoted 2 0 false true pVoted rfl rfl rfl

/-- Counterexample for C2 as stated: account 2's recorded vote on proposal 0 is
`true`, a second vote of `false` is rejected with the AlreadyVoted error, yet
afterwards the stored record reads `false` — the original choice is not kept. -/
theorem vote_overwrites_record_cex :
    gVoted.votes (2, 0) = some true ∧
    (vote gVoted 2 0 false).1 = Except.error "Voter has already voted on this proposal" ∧
    (vote gVoted 2 0 false).2.votes (2, 0) = some false :=
  ⟨rfl, rfl, rfl⟩

/-- C3: finalizing an Active proposal succeeds, stores Approved exactly when
yes strictly exceeds no (ties give Rejected), and returns exactly the status
it stored. -/
theorem finalize_active_spec (s : GovernancePallet) (pid : Nat) (p : Proposal)
    (hp : s.proposals pid = some p) (hA : p.status = ProposalStatus.Active) :
    (finalize_proposal s pid).1 =
      Except.ok (if p.no_votes < p.yes_votes then ProposalStatus.Approved
        else ProposalStatus.Rejected) ∧
    (finalize_proposal s pid).2.proposals pid =
      some { p with status := if p.no_votes < p.yes_votes then ProposalStatus.Approved
        else ProposalStatus.Rejected } := by
  simp [finalize_proposal, hp, hA, Map.insert]

/-- Witness for C3: finalizing proposal 0 of `gVoted` (1 yes, 0 no). -/
theorem finalize_active_spec_witness :
    (finalize_proposal gVoted 0).1 =
      Except.ok (if pVoted.no_votes < pVoted.yes_votes then ProposalStatus.Approved
        else ProposalStatus.Rejected) ∧
    (finalize_proposal gVoted 0).2.proposals 0 =
      some { pVoted with
        status := if pVoted.no_votes < pVoted.yes_votes then ProposalStatus.Approved
          else ProposalStatus.Rejected } :=
  finalize_active_spec gVoted 0 pVoted rfl rfl

/-- C6: on a proposal whose status is Approved or Rejected, vote and
finalize_proposal both fail with the finalized-proposal error and leave the
entire governance state (all proposal fields and all vote records) unchanged. -/
theorem terminal_state_frozen (s : GovernancePallet) (pid : Nat) (p : Proposal)
    (voter : Nat) (vt : Bool) (hp : s.proposals pid = some p)
    (hT : p.status = ProposalStatus.Approved ∨ p.status = ProposalStatus.Rejected) :
    (vote s voter pid vt).1 = Except.error "Cannot vote on finalized proposal" ∧
    (vote s voter pid vt).2 = s ∧
    (finalize_proposal s pid).1 = Except.error "Cannot vote on finalized proposal" ∧
    (finalize_proposal s pid).2 = s := by
  have hne : p.status ≠ ProposalStatus.Active := by
    rcases hT with h | h <;> simp [h]
  simp [vote, finalize_proposal, hp, hne]

/-- Witness for C6 on the Approved proposal of `gFinal`. -/
theorem terminal_state_frozen_witness :
    (vote gFinal 3 0 true).1 = Except.error "Cannot vote on finalized proposal" ∧
    (vote gFinal 3 0 true).2 = gFinal ∧
    (finalize_proposal gFinal 0).1 = Except.error "Cannot vote on finalized proposal" ∧
    (finalize_proposal gFinal 0).2 = gFinal :=
  terminal_state_frozen gFinal 0 pFinal 3 true rfl (Or.inl rfl)

/-- C10: when the proposal exists but is not Active and the voter has already
voted on it, vote fails with the finalized-proposal error — the Active check
precedes the duplicate check — and the state, in particular the votes map, is
untouched. -/
theorem vote_check_order (s : GovernancePallet) (voter pid : Nat) (vt b : Bool)
    (p : Proposal) (hp : s.proposals pid = some p)
    (hn : p.status ≠ ProposalStatus.Active) (_hv : s.votes (voter, pid) = some b) :
    (vote s voter pid vt).1 = Except.error "Cannot vote on finalized proposal" ∧
    (vote s voter pid vt).2 = s := by
  simp [vote, hp, hn]

/-- Witness for C10: account 2 already voted on the finalized proposal 0. -/
theorem vote_check_order_witness :
    (vote gFinal 2 0 false).1 = Except.error "Cannot vote on finalized proposal" ∧
    (vote gFinal 2 0 false).2 = gFinal :=
  vote_check_order gFinal 2 0 false true pFinal rfl (by decide) rfl

/-- Folding `create_proposal` calls advances the `u32` counter by the number of
calls, modulo `2^32`. -/
theorem foldl_create_next_id (l : List (Nat × String)) (s : GovernancePallet)
    (h : s.next_proposal_id < U32_MOD) :
    (l.foldl (fun t cd => (create_proposal t cd.1 cd.2).2) s).next_proposal_id
      = (s.next_proposal_id + l.length) % U32_MOD := by
  induction l generalizing s with
  | nil =>
    simpa using (Nat.mod_eq_of_lt h).symm
  | cons cd rest ih =>
    simp only [List.foldl_cons, List.length_cons]
    rw [ih ((create_proposal s cd.1 cd.2).2) (by simp only [create_proposal, U32_MOD]; omega)]
    simp only [create_proposal, U32_MOD]
    omega

/-- The counter after running `createSeq` equals the call count modulo `2^32`. -/
theorem createSeq_next_id (l : List (Nat × String)) :
    (createSeq l).next_proposal_id = l.length % U32_MOD := by
  have h := foldl_create_next_id l GovernancePallet.new (by decide)
  simpa [createSeq, GovernancePallet.new] using h

/-- C7 (amended): create_proposal always returns ok with the current counter
value and stores an Active zero-tally proposal with the given description and
creator under that id; from a fresh registry the (n+1)-th call returns
`n % 2^32`, so successive ids are strictly increasing only while the call
count stays below `2^32`. -/
theorem create_proposal_spec (s : GovernancePallet) (creator : Nat) (d : String)
    (l : List (Nat × String)) (cd : Nat × String) (hlen : l.length + 1 < U32_MOD) :
    (create_proposal s creator d).1 = Except.ok s.next_proposal_id ∧
    (create_proposal s creator d).2.proposals s.next_proposal_id =
      some { description := d, yes_votes := 0, no_votes := 0,
             status := ProposalStatus.Active, creator := creator } ∧
    (create_proposal (createSeq l) cd.1 cd.2).1 = Except.ok (l.length % U32_MOD) ∧
    (createSeq l).next_proposal_id < (createSeq (l ++ [cd])).next_proposal_id := by
  refine ⟨rfl, ?_, ?_, ?_⟩
  · simp [create_proposal, Map.insert]
  · simp only [create_proposal]
    rw [createSeq_next_id]
  · rw [createSeq_next_id, createSeq_next_id]
    simp only [List.length_append, List.length_cons, List.length_nil, U32_MOD] at *
    omega

/-- Witness for C7's amended statement: the very first call from a fresh
registry. -/
theorem create_proposal_spec_witness :
    (create_proposal GovernancePallet.new 1 "w").1 =
      Except.ok GovernancePallet.new.next_proposal_id ∧
    (create_proposal GovernancePallet.new 1 "w").2.proposals
        GovernancePallet.new.next_proposal_id =
      some { description := "w", yes_votes := 0, no_votes := 0,
             status := ProposalStatus.Active, creator := 1 } ∧
    (create_proposal (createSeq []) 1 "w").1 = Except.ok 0 ∧
    (createSeq []).next_proposal_id < (createSeq [(1, "w")]).next_proposal_id :=
  create_proposal_spec GovernancePallet.new 1 "w" [] (1, "w") (by decide)

/-- Counterexample for C7 as stated: after `2^32` create_proposal calls the
`u32` counter has wrapped, so the next call returns id 0 — not the claimed
`2^32`, and not greater than the id the previous call returned. -/
theorem create_id_wrap_cex :
    (create_proposal (createSeq (List.replicate U32_MOD (1, "d"))) 1 "d").1
      = Except.ok 0 ∧ (0 : Nat) ≠ U32_MOD := by
  constructor
  · have h := createSeq_next_id (List.replicate U32_MOD (1, "d"))
    simp only [List.length_replicate, Nat.mod_self] at h
    simp only [create_proposal]
    rw [h]
  · decide

example : get_free_balance (set_balance StakingPallet.new 1 1000) 1 = 1000 := rfl

example :
    (stake (set_balance StakingPallet.new 1 1000) 1 400).1 = Except.ok () := rfl

example :
    get_free_balance (stake (set_balance StakingPallet.new 1 1000) 1 400).2 1 = 600 := rfl

example :
    get_staked_balance (stake (set_balance StakingPallet.new 1 1000) 1 400).2 1 = 400 := rfl

example : (stake (set_balance StakingPallet.new 2 500) 2 600).1 =
    Except.error "Insufficient balance" := rfl

example : (create_proposal GovernancePallet.new 1 "d").1 = Except.ok 0 := rfl

example :
    (vote (create_proposal GovernancePallet.new 1 "d").2 2 0 true).1 = Except.ok () := rfl

end StakingGov
